import Mathlib

/-!
Verification of the mDNS discovery-result pipeline of lib/core/EdisonMDNS.js
(iotkit-comm-js). The development is a shallow embedding: the module-level
mutable state of the source (exports.serviceCache, exports.myaddresses) is
passed explicitly, JS objects become structures with Option fields for
possibly-absent properties, and JS truthiness of strings and numbers is made
explicit (empty string and 0 are falsy).
-/

set_option linter.unusedVariables false

namespace EdisonMDNS

/-- All local services are reported at this address (source: exports.LOCAL_ADDR). -/
def LOCAL_ADDR : String := "127.0.0.1"

/-- A discovered mDNS service record as consumed by the pipeline: name, port,
TXT properties and resolved addresses, each possibly absent. -/
structure ServiceRec where
  name : Option String
  port : Option Nat
  properties : Option (List (String × String))
  addresses : Option (List String)
deriving DecidableEq, Repr

/-- The raw query object underlying a ServiceQuery: service type, optional
port, optional property mapping. -/
structure RawQuery where
  type : String
  port : Option Nat
  properties : Option (List (String × String))

/-- A ServiceQuery object as read by serviceQueryFilter: the compiled name
pattern (modelled as a boolean test on strings) and the raw query. -/
structure ServiceQuery where
  nameRegEx : Option (String → Bool)
  rawQuery : RawQuery

/-- Modelled from the spec: the data model of a ServiceQuery (spec section 3)
has exactly an optional name pattern, an optional port and an optional
property mapping; the matcher reads these at nameRegEx, rawQuery.port and
rawQuery.properties (source lines 335, 343, 351). The ServiceQuery object
carries no further top-level properties field, so the source read of
query.properties at line 368 yields undefined, which is falsy. -/
def queryPropertiesTop (q : ServiceQuery) : Option (List (String × String)) := none

/-- The service cache (source: exports.serviceCache), an object mapping a
service name to the set of addresses already seen for it. Insertion order of
keys is preserved, as for JS string-keyed objects. -/
abbrev Cache := List (String × List String)

/-- Look a name up in the cache. -/
def cacheLookup (c : Cache) (n : String) : Option (List String) :=
  match c with
  | [] => none
  | (m, v) :: rest => if m = n then some v else cacheLookup rest n

/-- The set of addresses cached for a name; empty when the name is unknown
(JS: Object.keys of an absent entry treated as none). -/
def cacheEntry (c : Cache) (n : String) : List String :=
  (cacheLookup c n).getD []

/-- Replace (or create) the entry for a name. -/
def cacheUpdate (c : Cache) (n : String) (v : List String) : Cache :=
  match c with
  | [] => [(n, v)]
  | (m, w) :: rest => if m = n then (m, v) :: rest else (m, w) :: cacheUpdate rest n v

/-- Length of the matching character prefix of two address strings
(source: getMatchingPrefixLen, lines 235-243). -/
def matchingPrefixLenChars : List Char → List Char → Nat
  | a :: as, b :: bs => if a = b then matchingPrefixLenChars as bs + 1 else 0
  | _, _ => 0

/-- Length of the matching prefix of a service address and a local interface
address (source: getMatchingPrefixLen). -/
def getMatchingPrefixLen (serviceAddress myaddress : String) : Nat :=
  matchingPrefixLenChars serviceAddress.data myaddress.data

/-- The resultStore of getAddressesWithLongestPrefixMatch: an object keyed by
matching prefix length whose values are address sets in insertion order. -/
abbrev Store := List (Nat × List String)

/-- resultStore[k][a] = true, creating the bucket when absent. -/
def storeInsert : Store → Nat → String → Store
  | [], k, a => [(k, [a])]
  | (m, b) :: rest, k, a =>
    if m = k then (m, if a ∈ b then b else b ++ [a]) :: rest
    else (m, b) :: storeInsert rest k a

/-- Largest key of a store (the source sorts the keys numerically and takes
the last). -/
def storeKeysMax (st : Store) : Nat := (st.map Prod.fst).foldl Nat.max 0

/-- Bucket under a key of the store. -/
def storeLookup : Store → Nat → List String
  | [], _ => []
  | (m, b) :: rest, k => if m = k then b else storeLookup rest k

/-- Inner forEach of getAddressesWithLongestPrefixMatch: record the matching
prefix length of one service address against every local address. -/
def insertPrefixMatches (myaddresses : List String) (sa : String) (st : Store) : Store :=
  match myaddresses with
  | [] => st
  | ma :: rest => insertPrefixMatches rest sa (storeInsert st (getMatchingPrefixLen sa ma) sa)

/-- Outer forEach of getAddressesWithLongestPrefixMatch: build the full
resultStore. -/
def buildStore (myaddresses : List String) (serviceAddresses : List String) (st : Store) : Store :=
  match serviceAddresses with
  | [] => st
  | sa :: rest => buildStore myaddresses rest (insertPrefixMatches myaddresses sa st)

/-- All candidates achieving the largest matching prefix length against any
local address; empty when the store has no keys at all
(source: getAddressesWithLongestPrefixMatch, lines 251-275). -/
def getAddressesWithLongestPrefixMatch (myaddresses serviceAddresses : List String) :
    List String :=
  match buildStore myaddresses serviceAddresses [] with
  | [] => []
  | st@(_ :: _) => storeLookup st (storeKeysMax st)

/-- JS default array sort comparison on strings, elementwise on characters. -/
def jsCharListLe : List Char → List Char → Bool
  | [], _ => true
  | _ :: _, [] => false
  | a :: as, b :: bs => if a = b then jsCharListLe as bs else decide (a < b)

/-- JS string comparison used by Array.prototype.sort. -/
def jsStrLe (s t : String) : Bool := jsCharListLe s.data t.data

/-- Insert into a sorted list of strings. -/
def insertSorted (a : String) : List String → List String
  | [] => [a]
  | b :: bs => if jsStrLe a b then a :: b :: bs else b :: insertSorted a bs

/-- Sort a list of strings ascending in JS string order
(source: longestPrefixMatches.sort() at line 321). -/
def sortStrings : List String → List String
  | [] => []
  | a :: rest => insertSorted a (sortStrings rest)

/-- The AddressRanker of the spec (section 4.3), realized in the source as
getAddressesWithLongestPrefixMatch followed by the lexicographic sort at
serviceAddressFilter lines 320-321. -/
def rank (candidateAddresses localAddresses : List String) : List String :=
  sortStrings (getAddressesWithLongestPrefixMatch localAddresses candidateAddresses)

/-- Whether any service address equals a local interface address
(source: serviceIsLocal, lines 205-227). -/
def serviceIsLocal (myaddresses serviceAddresses : List String) : Bool :=
  match serviceAddresses with
  | [] => false
  | _ :: _ => serviceAddresses.any (fun sa => myaddresses.any (fun ma => sa == ma))

/-- The forEach of serviceAddressFilter (lines 296-306): insert every address
of the event into the cache entry of the name, collecting in order the
addresses not seen before. Returns the updated cache and notSeenBefore. -/
def insertAddresses (cache : Cache) (n : String) : List String → Cache × List String
  | [] => (cache, [])
  | a :: rest =>
    if a ∈ cacheEntry cache n then insertAddresses cache n rest
    else
      let r := insertAddresses (cacheUpdate cache n (cacheEntry cache n ++ [a])) n rest
      (r.1, a :: r.2)

/-- The value returned by serviceAddressFilter once the cache has been
updated (lines 308-323): empty on a pure duplicate, the loopback marker when
the cumulative cached set is local, the single new address verbatim, or the
ranked and sorted top prefix-match group. -/
def admittedAddresses (myaddresses : List String) (cache1 : Cache) (n : String)
    (notSeenBefore : List String) : List String :=
  match notSeenBefore with
  | [] => []
  | _ :: _ =>
    if serviceIsLocal myaddresses (cacheEntry cache1 n) then [LOCAL_ADDR]
    else
      match notSeenBefore with
      | [a] => [a]
      | _ => sortStrings (getAddressesWithLongestPrefixMatch myaddresses notSeenBefore)

/-- serviceAddressFilter (lines 284-324): drop records without addresses or
without a truthy name; otherwise update the cache and compute the admitted
address list. Returns the admitted list together with the updated cache. -/
def serviceAddressFilter (myaddresses : List String) (cache : Cache) (service : ServiceRec) :
    List String × Cache :=
  match service.addresses, service.name with
  | some addrs, some n =>
    if n == "" then ([], cache)
    else
      (admittedAddresses myaddresses (insertAddresses cache n addrs).1 n
          (insertAddresses cache n addrs).2,
        (insertAddresses cache n addrs).1)
  | _, _ => ([], cache)

/-- JS truthiness of an optional port number: absent and 0 are falsy. -/
def portTruthy : Option Nat → Bool
  | none => false
  | some p => !(p == 0)

/-- JS object property read: value of a key in a property mapping. -/
def propLookup (props : List (String × String)) (k : String) : Option String :=
  match props with
  | [] => none
  | (k2, v) :: rest => if k2 == k then some v else propLookup rest k

/-- Name clause of serviceQueryFilter (lines 335-341): a present pattern
tested against a truthy record name. -/
def nameRegExClause (q : ServiceQuery) (r : ServiceRec) : Bool :=
  match q.nameRegEx, r.name with
  | some test, some nm => if nm == "" then false else test nm
  | _, _ => false

/-- Port clause of serviceQueryFilter (lines 343-349): both ports truthy and
equal. -/
def portClause (q : ServiceQuery) (r : ServiceRec) : Bool :=
  match q.rawQuery.port, r.port with
  | some qp, some rp => !(qp == 0) && !(rp == 0) && qp == rp
  | _, _ => false

/-- Properties clause of serviceQueryFilter (lines 351-365): some query key
whose truthy record value is strictly equal to the query value. -/
def propertiesClause (q : ServiceQuery) (r : ServiceRec) : Bool :=
  match q.rawQuery.properties, r.properties with
  | some qprops, some rprops =>
    qprops.any (fun kv =>
      match propLookup rprops kv.1 with
      | some v => !(v == "") && v == kv.2
      | none => false)
  | _, _ => false

/-- serviceQueryFilter (lines 332-376): OR of the three clauses, then the
type-only fallback, which in the source tests query.nameRegEx,
query.rawQuery.port and the top-level query.properties (line 368). -/
def serviceQueryFilter (q : ServiceQuery) (r : ServiceRec) : Bool :=
  if nameRegExClause q r then true
  else if portClause q r then true
  else if propertiesClause q r then true
  else if !q.nameRegEx.isSome && !(portTruthy q.rawQuery.port)
      && !(queryPropertiesTop q).isSome then true
  else false

/-- Continuation of the serviceUp handler after the address filter (lines
118-132): if the admitted list is non-empty, apply the optional user filter
and, when it passes, invoke the application callback inside try/catch.
The result records the updated cache and the descriptor delivered to the
callback, if any. -/
def serviceUpAdmitted (userServiceFilter : Option (ServiceRec × List String → Bool))
    (callback : ServiceRec × List String → Except String Unit)
    (r : List String × Cache) (service : ServiceRec) :
    Except String (Cache × Option (ServiceRec × List String)) :=
  match r.1 with
  | [] => Except.ok (r.2, none)
  | _ :: _ =>
    if (match userServiceFilter with
        | none => true
        | some f => f (service, r.1)) then
      match callback (service, r.1) with
      | Except.ok _ => Except.ok (r.2, some (service, r.1))
      | Except.error _ => Except.ok (r.2, some (service, r.1))
    else Except.ok (r.2, none)

/-- The serviceUp event handler installed by discoverServices (lines
111-133): the query filter runs first and rejected records return at once;
otherwise serviceAddressFilter updates the cache and the admitted list flows
into the user filter and application callback. -/
def serviceUpHandler (myaddresses : List String) (q : ServiceQuery)
    (userServiceFilter : Option (ServiceRec × List String → Bool))
    (callback : ServiceRec × List String → Except String Unit)
    (cache : Cache) (service : ServiceRec) :
    Except String (Cache × Option (ServiceRec × List String)) :=
  if !(serviceQueryFilter q service) then Except.ok (cache, none)
  else
    serviceUpAdmitted userServiceFilter callback
      (serviceAddressFilter myaddresses cache service) service

/-- The serviceUp handler in the order claim C3 states it: the address
admission pipeline is applied first, and the query matcher and user filter
only to records whose admitted list is non-empty. Written from the claim for
comparison with serviceUpHandler. -/
def serviceUpClaimOrder (myaddresses : List String) (q : ServiceQuery)
    (userServiceFilter : Option (ServiceRec × List String → Bool))
    (callback : ServiceRec × List String → Except String Unit)
    (cache : Cache) (service : ServiceRec) :
    Except String (Cache × Option (ServiceRec × List String)) :=
  match (serviceAddressFilter myaddresses cache service).1 with
  | [] => Except.ok ((serviceAddressFilter myaddresses cache service).2, none)
  | _ :: _ =>
    if !(serviceQueryFilter q service) then
      Except.ok ((serviceAddressFilter myaddresses cache service).2, none)
    else
      serviceUpAdmitted userServiceFilter callback
        (serviceAddressFilter myaddresses cache service) service

/-- The serviceUp handler in the amended order: the query matcher first, the
admission pipeline only for records passing the query, then user filter and
callback on a non-empty admitted list. -/
def serviceUpAmendedOrder (myaddresses : List String) (q : ServiceQuery)
    (userServiceFilter : Option (ServiceRec × List String → Bool))
    (callback : ServiceRec × List String → Except String Unit)
    (cache : Cache) (service : ServiceRec) :
    Except String (Cache × Option (ServiceRec × List String)) :=
  if serviceQueryFilter q service then
    serviceUpAdmitted userServiceFilter callback
      (serviceAddressFilter myaddresses cache service) service
  else Except.ok (cache, none)

/-- Cache component of a handler result, for observing state effects. -/
def handlerCache (r : Except String (Cache × Option (ServiceRec × List String))) : Cache :=
  match r with
  | Except.ok p => p.1
  | Except.error _ => []

/-- Whether an Except result is a normal return. -/
def isOkE {α : Type} (r : Except String α) : Bool :=
  match r with
  | Except.ok _ => true
  | Except.error _ => false

/-- Error message thrown by discoverServices on a malformed query argument
(line 102). -/
def invalidArgumentMsg : String :=
  "Invalid argument: must use a ServiceQuery object to discover services."

/-- A started browsing session: the service type handed to the external
browser (line 109). -/
structure BrowsingSession where
  browseType : String
deriving DecidableEq, Repr

/-- The argument-validation prefix of discoverServices (lines 99-109): the
constructor name of the argument is checked against ServiceQuery before the
browser is created on the raw query type. -/
def discoverServices (ctorName : String) (rq : RawQuery) : Except String BrowsingSession :=
  if !(ctorName == "ServiceQuery") then Except.error invalidArgumentMsg
  else Except.ok ⟨rq.type⟩

/-- No-op application callback, used to compare handler outcomes. -/
def cbOk : ServiceRec × List String → Except String Unit := fun _ => Except.ok ()

/-- A query specifying only a port (80): nameRegEx absent, properties
absent. -/
def qPortOnly : ServiceQuery := ⟨none, ⟨"_test._tcp", some 80, none⟩⟩

/-- A record on port 9090 with one address, matching qPortOnly in nothing. -/
def recPort9090 : ServiceRec := ⟨some "svc", some 9090, none, some ["10.0.0.9"]⟩

/-- A query specifying only a property mapping, role = sensor. -/
def qPropsOnly : ServiceQuery := ⟨none, ⟨"_test._tcp", none, some [("role", "sensor")]⟩⟩

/-- A record whose role property is actuator: it matches no specified field
of qPropsOnly. -/
def recActuator : ServiceRec := ⟨some "svc", some 8080, some [("role", "actuator")], some ["10.0.0.9"]⟩

/-! Supporting lemmas about the cache operations. -/

theorem cacheLookup_cacheUpdate (c : Cache) (n : String) (v : List String) :
    cacheLookup (cacheUpdate c n v) n = some v := by
  induction c with
  | nil => simp [cacheUpdate, cacheLookup]
  | cons hd tl ih =>
    obtain ⟨m, w⟩ := hd
    by_cases h : m = n
    · simp [cacheUpdate, cacheLookup, h]
    · simp [cacheUpdate, cacheLookup, h, ih]

theorem mem_entry_insertAddresses_mono (n a : String) (l : List String) :
    ∀ c : Cache, a ∈ cacheEntry c n → a ∈ cacheEntry (insertAddresses c n l).1 n := by
  induction l with
  | nil => intro c h; simpa [insertAddresses] using h
  | cons b rest ih =>
    intro c h
    by_cases hb : b ∈ cacheEntry c n
    · simpa [insertAddresses, hb] using ih c h
    · simp only [insertAddresses, hb, if_false]
      apply ih
      simp only [cacheEntry, cacheLookup_cacheUpdate, Option.getD_some]
      exact List.mem_append.2 (Or.inl h)

theorem mem_entry_insertAddresses (n a : String) (l : List String) :
    ∀ c : Cache, a ∈ l → a ∈ cacheEntry (insertAddresses c n l).1 n := by
  induction l with
  | nil => intro c h; cases h
  | cons b rest ih =>
    intro c h
    rcases List.mem_cons.1 h with h1 | h2
    · subst h1
      by_cases hb : a ∈ cacheEntry c n
      · simpa [insertAddresses, hb] using mem_entry_insertAddresses_mono n a rest c hb
      · simp only [insertAddresses, hb, if_false]
        apply mem_entry_insertAddresses_mono
        simp only [cacheEntry, cacheLookup_cacheUpdate, Option.getD_some]
        exact List.mem_append.2 (Or.inr (List.mem_singleton.2 rfl))
    · by_cases hb : b ∈ cacheEntry c n
      · simpa [insertAddresses, hb] using ih c h2
      · simpa [insertAddresses, hb] using ih _ h2

theorem insertAddresses_of_all_mem (n : String) (l : List String) :
    ∀ c : Cache, (∀ a ∈ l, a ∈ cacheEntry c n) → insertAddresses c n l = (c, []) := by
  induction l with
  | nil => intro c _; rfl
  | cons b rest ih =>
    intro c h
    have hb : b ∈ cacheEntry c n := h b (List.mem_cons_self b rest)
    simp only [insertAddresses, hb, if_true]
    exact ih c (fun a ha => h a (List.mem_cons_of_mem b ha))

theorem serviceIsLocal_of_mem (m l : List String) (a : String)
    (h1 : a ∈ l) (h2 : a ∈ m) : serviceIsLocal m l = true := by
  cases l with
  | nil => cases h1
  | cons b bs =>
    simp only [serviceIsLocal, List.any_eq_true, beq_iff_eq]
    exact ⟨a, h1, a, h2, rfl⟩

/-- C4: for every serviceUp record with a truthy name and an address list
contributing at least one new address, if any address of the cumulative
cached set for that name equals a local address, then the admitted result is
exactly the one-element list containing the fixed loopback marker address,
regardless of how many other distinct addresses were reported. -/
theorem serviceAddressFilter_local_gives_loopback
    (myaddrs : List String) (cache : Cache) (n : String) (port : Option Nat)
    (props : Option (List (String × String))) (addrs : List String)
    (hn : n ≠ "")
    (hnew : (insertAddresses cache n addrs).2 ≠ [])
    (hloc : ∃ a ∈ cacheEntry (insertAddresses cache n addrs).1 n, a ∈ myaddrs) :
    (serviceAddressFilter myaddrs cache ⟨some n, port, props, some addrs⟩).1 = [LOCAL_ADDR] := by
  obtain ⟨a, ha1, ha2⟩ := hloc
  have hbe : (n == "") = false := beq_eq_false_iff_ne.2 hn
  simp only [serviceAddressFilter, hbe, Bool.false_eq_true, if_false]
  cases hns : (insertAddresses cache n addrs).2 with
  | nil => exact absurd hns hnew
  | cons b bs =>
    simp only [admittedAddresses, serviceIsLocal_of_mem myaddrs _ a ha1 ha2, if_true]

/-- Witness for C4 at a concrete input: a two-address record for a fresh
name, one address being local. -/
theorem serviceAddressFilter_local_gives_loopback_witness :
    ("svc" ≠ "" ∧ (insertAddresses [] "svc" ["192.168.0.2", "10.0.0.1"]).2 ≠ [] ∧
      ∃ a ∈ cacheEntry (insertAddresses [] "svc" ["192.168.0.2", "10.0.0.1"]).1 "svc",
        a ∈ ["192.168.0.2"]) ∧
    (serviceAddressFilter ["192.168.0.2"] []
        ⟨some "svc", none, none, some ["192.168.0.2", "10.0.0.1"]⟩).1 = [LOCAL_ADDR] :=
  ⟨⟨by decide, by decide, by decide⟩,
    serviceAddressFilter_local_gives_loopback ["192.168.0.2"] [] "svc" none none
      ["192.168.0.2", "10.0.0.1"] (by decide) (by decide) (by decide)⟩

/-- C7: for every serviceUp record with a truthy name and addresses that is
not local, if exactly one of the event addresses is new for that name, the
admission pipeline returns exactly the one-element list containing that
address verbatim. -/
theorem serviceAddressFilter_single_new_verbatim
    (myaddrs : List String) (cache : Cache) (n : String) (port : Option Nat)
    (props : Option (List (String × String))) (addrs : List String) (a : String)
    (hn : n ≠ "")
    (hone : (insertAddresses cache n addrs).2 = [a])
    (hloc : serviceIsLocal myaddrs (cacheEntry (insertAddresses cache n addrs).1 n) = false) :
    (serviceAddressFilter myaddrs cache ⟨some n, port, props, some addrs⟩).1 = [a] := by
  have hbe : (n == "") = false := beq_eq_false_iff_ne.2 hn
  simp only [serviceAddressFilter, hbe, Bool.false_eq_true, if_false]
  rw [hone]
  simp [admittedAddresses, hloc]

/-- Witness for C7 at a concrete input: one cached address, the event adds
exactly one new non-local address. -/
theorem serviceAddressFilter_single_new_verbatim_witness :
    ("svc" ≠ "" ∧
      (insertAddresses [("svc", ["10.0.0.1"])] "svc" ["10.0.0.1", "10.0.0.9"]).2 = ["10.0.0.9"] ∧
      serviceIsLocal ["192.168.0.2"]
        (cacheEntry (insertAddresses [("svc", ["10.0.0.1"])] "svc"
          ["10.0.0.1", "10.0.0.9"]).1 "svc") = false) ∧
    (serviceAddressFilter ["192.168.0.2"] [("svc", ["10.0.0.1"])]
        ⟨some "svc", none, none, some ["10.0.0.1", "10.0.0.9"]⟩).1 = ["10.0.0.9"] :=
  ⟨⟨by decide, by decide, by decide⟩,
    serviceAddressFilter_single_new_verbatim ["192.168.0.2"] [("svc", ["10.0.0.1"])] "svc"
      none none ["10.0.0.1", "10.0.0.9"] "10.0.0.9" (by decide) (by decide) (by decide)⟩

/-- C5: for every service name and every address list, running the address
admission pipeline twice in succession with the identical address list gives
an empty result on the second call, so a non-empty result can occur at most
on the first call. -/
theorem serviceAddressFilter_idempotent
    (myaddrs : List String) (cache : Cache) (n : String) (port : Option Nat)
    (props : Option (List (String × String))) (addrs : List String) :
    (serviceAddressFilter myaddrs
        (serviceAddressFilter myaddrs cache ⟨some n, port, props, some addrs⟩).2
        ⟨some n, port, props, some addrs⟩).1 = [] := by
  by_cases hn : n = ""
  · subst hn; simp [serviceAddressFilter]
  · have hbe : (n == "") = false := beq_eq_false_iff_ne.2 hn
    simp only [serviceAddressFilter, hbe, Bool.false_eq_true, if_false]
    have hall : ∀ a ∈ addrs, a ∈ cacheEntry (insertAddresses cache n addrs).1 n :=
      fun a ha => mem_entry_insertAddresses n a addrs cache ha
    rw [insertAddresses_of_all_mem n addrs _ hall]
    simp [admittedAddresses]

theorem buildStore_no_locals (l : List String) : ∀ st : Store, buildStore [] l st = st := by
  induction l with
  | nil => intro st; rfl
  | cons sa rest ih => intro st; simpa [buildStore, insertPrefixMatches] using ih st

/-- Counterexample to C1 as stated: with no local addresses, ranking two
candidates returns the empty list, not the candidates as one sorted tie
group. -/
theorem rank_no_locals_counterexample :
    rank ["10.0.0.6", "10.0.0.5"] [] = [] ∧
    (rank ["10.0.0.6", "10.0.0.5"] [] == ["10.0.0.5", "10.0.0.6"]) = false := by decide

/-- C1 amended: for every list of candidate addresses, when the set of local
addresses is empty, rank returns the empty list, because no candidate-local
pair exists, so no prefix length is ever recorded and no tie group is
formed. -/
theorem rank_no_locals_empty (candidates : List String) :
    rank candidates [] = [] := by
  simp [rank, getAddressesWithLongestPrefixMatch, buildStore_no_locals, sortStrings]

/-- C6: with local addresses 10.0.0.1, ranking the candidates 10.0.0.5 and
10.0.1.9 returns exactly the first (it shares the longer character prefix),
and ranking 10.0.0.5 and 10.0.0.6 returns both, sorted, since they tie. -/
theorem rank_deterministic_examples :
    rank ["10.0.0.5", "10.0.1.9"] ["10.0.0.1"] = ["10.0.0.5"] ∧
    rank ["10.0.0.5", "10.0.0.6"] ["10.0.0.1"] = ["10.0.0.5", "10.0.0.6"] := by decide

/-- C2 at the failing input: a query specifying only a property mapping that
the record does not match. The source returns true because line 368 tests
the absent top-level query.properties instead of query.rawQuery.properties,
although the comment above that line requires a record to match at least one
specified field. -/
theorem serviceQueryFilter_props_only_no_match :
    serviceQueryFilter qPropsOnly recActuator = true := by decide

/-- Counterexample to C3 as stated: at a record that fails the query while
carrying a fresh address, a handler running the admission pipeline first
would cache the address, but the source handler leaves the cache untouched,
so the claimed order disagrees with the code. -/
theorem serviceUp_pipeline_first_counterexample :
    (handlerCache (serviceUpHandler ["192.168.0.2"] qPortOnly none cbOk [] recPort9090)
      == handlerCache (serviceUpClaimOrder ["192.168.0.2"] qPortOnly none cbOk [] recPort9090))
      = false := by decide

/-- C3 amended: for every serviceUp event the query matcher is applied
first; only for records passing it does the address admission pipeline run,
and the user filter and the application callback are applied exactly when
the admitted address list is non-empty, in that order. -/
theorem serviceUpHandler_order (myaddrs : List String) (q : ServiceQuery)
    (uf : Option (ServiceRec × List String → Bool))
    (cb : ServiceRec × List String → Except String Unit)
    (cache : Cache) (service : ServiceRec) :
    serviceUpHandler myaddrs q uf cb cache service
      = serviceUpAmendedOrder myaddrs q uf cb cache service := by
  unfold serviceUpHandler serviceUpAmendedOrder
  cases hq : serviceQueryFilter q service <;> simp [hq]

/-- C8: discoverServices fails with the InvalidArgument error exactly when
the constructor name of its argument is not ServiceQuery, and otherwise
starts browsing on the raw query type. -/
theorem discoverServices_invalid_argument (ctorName : String) (rq : RawQuery) :
    discoverServices ctorName rq
      = (if ctorName == "ServiceQuery" then Except.ok ⟨rq.type⟩
          else Except.error invalidArgumentMsg) := by
  unfold discoverServices
  cases h : (ctorName == "ServiceQuery") <;> simp [h]

theorem serviceUpAdmitted_callback_irrelevant
    (uf : Option (ServiceRec × List String → Bool))
    (cb1 cb2 : ServiceRec × List String → Except String Unit)
    (r : List String × Cache) (s : ServiceRec) :
    serviceUpAdmitted uf cb1 r s = serviceUpAdmitted uf cb2 r s := by
  obtain ⟨fs, c⟩ := r
  cases fs with
  | nil => rfl
  | cons b bs =>
    simp only [serviceUpAdmitted]
    split
    · cases cb1 (s, b :: bs) <;> cases cb2 (s, b :: bs) <;> rfl
    · rfl

theorem serviceUpAdmitted_isOk
    (uf : Option (ServiceRec × List String → Bool))
    (cb : ServiceRec × List String → Except String Unit)
    (r : List String × Cache) (s : ServiceRec) :
    isOkE (serviceUpAdmitted uf cb r s) = true := by
  obtain ⟨fs, c⟩ := r
  cases fs with
  | nil => rfl
  | cons b bs =>
    simp only [serviceUpAdmitted]
    split
    · cases cb (s, b :: bs) <;> rfl
    · rfl

/-- C9: if the application callback raises an error, the failure is caught
at the handler boundary: the handler outcome equals the outcome with a
callback that succeeds, and the handler always returns normally, so
processing of subsequent events continues on the same cache. -/
theorem serviceUpHandler_callback_error_swallowed (myaddrs : List String)
    (q : ServiceQuery) (uf : Option (ServiceRec × List String → Bool))
    (e : String) (cache : Cache) (service : ServiceRec) :
    serviceUpHandler myaddrs q uf (fun _ => Except.error e) cache service
        = serviceUpHandler myaddrs q uf cbOk cache service ∧
      isOkE (serviceUpHandler myaddrs q uf (fun _ => Except.error e) cache service) = true := by
  unfold serviceUpHandler
  cases hq : serviceQueryFilter q service
  · simp [isOkE]
  · simp only [hq, Bool.not_true, Bool.false_eq_true, if_false]
    exact ⟨serviceUpAdmitted_callback_irrelevant uf _ cbOk _ service,
      serviceUpAdmitted_isOk uf _ _ service⟩

/-- C10: for every serviceUp event whose record does not satisfy the query
filter, the handler returns with the service cache completely unchanged and
nothing delivered, so the addresses of such a record still count as new on a
later matching event. -/
theorem serviceUpHandler_query_reject_frame (myaddrs : List String) (q : ServiceQuery)
    (uf : Option (ServiceRec × List String → Bool))
    (cb : ServiceRec × List String → Except String Unit)
    (cache : Cache) (service : ServiceRec)
    (hq : serviceQueryFilter q service = false) :
    serviceUpHandler myaddrs q uf cb cache service = Except.ok (cache, none) := by
  unfold serviceUpHandler
  simp [hq]

/-- Witness for C10 at a concrete input: a port-only query the record fails,
over a non-empty cache that stays untouched. -/
theorem serviceUpHandler_query_reject_frame_witness :
    serviceQueryFilter qPortOnly recPort9090 = false ∧
    serviceUpHandler ["192.168.0.2"] qPortOnly none cbOk [("other", ["1.2.3.4"])] recPort9090
      = Except.ok ([("other", ["1.2.3.4"])], none) :=
  ⟨by decide,
    serviceUpHandler_query_reject_frame ["192.168.0.2"] qPortOnly none cbOk
      [("other", ["1.2.3.4"])] recPort9090 (by decide)⟩

end EdisonMDNS
